import Mathlib

/-!
Verification of the waypoint sequencer in `src/scripts/corner_navigator.py`
(class `CornerNavigator`).

The Python program is embedded shallowly:

* a waypoint is the tuple `(x, y, waypoint_name, pause_duration)` from the
  `self.waypoints` list;
* the environment supplies, for each waypoint, the value returned by
  `self.client.wait_for_result(rospy.Duration(60.0))` together with the value
  of `self.client.get_state()` (`WaypointResult`);
* `processWaypoint` is the body of the `for` loop of `navigate_to_waypoints`
  (lines 141-181): it returns the updated statistics, the log records written
  for that waypoint, and the action-client calls performed;
* `runLoop` folds `processWaypoint` over the waypoint list;
* numbers that the Python program stores as floats are modelled as rationals
  (reals for the trigonometric goal construction), and ROS messages are
  reduced to the fields the program reads.
-/

namespace CornerNav

/-- Snapshot of `self.current_odom`: the latest `(x, y)` position delivered to
`odom_callback`, or `none` when no odometry message has arrived yet. -/
abbrev Odom := Option (ℚ × ℚ)

/-- One entry of `self.waypoints`: `(x, y, waypoint_name, pause_duration)`. -/
structure Waypoint where
  x : ℚ
  y : ℚ
  name : String
  pause : ℚ
deriving DecidableEq

/-- The run statistics `self.waypoints_reached` and `self.waypoints_failed`. -/
structure Stats where
  reached : ℕ
  failedW : ℕ
deriving DecidableEq

/-- What the action client reported for one waypoint: `waitOk` is the Bool
returned by `wait_for_result` (false on timeout) and `state` is
`self.client.get_state()`. -/
structure WaypointResult where
  waitOk : Bool
  state : ℕ
deriving DecidableEq

/-- `actionlib.GoalStatus.SUCCEEDED`. -/
def SUCCEEDED : ℕ := 3

/-- One formatted row written by `log_waypoint` (lines 113-130): waypoint name
truncated to 30 characters, target coordinates, status string, and the
optional `Actual: (x, y)` suffix taken from `self.current_odom`. -/
structure LogRecord where
  name : String
  x : ℚ
  y : ℚ
  status : String
  actual : Odom
deriving DecidableEq

/-- `log_waypoint(waypoint_name, x, y, status)` as a pure record constructor. -/
def mkRecord (odom : Odom) (w : Waypoint) (status : String) : LogRecord :=
  { name := w.name.take 30, x := w.x, y := w.y, status := status, actual := odom }

/-- Calls made on the `move_base` action client. -/
inductive ClientAction
  | sendGoal (x y : ℚ)
  | cancelAllGoals
deriving DecidableEq

/-- The body of the `for` loop of `navigate_to_waypoints` (lines 148-181):
log "Goal Sent", `send_goal`, wait with timeout; on timeout log "Timeout" and
increment `waypoints_failed`; on `SUCCEEDED` log "Reached", increment
`waypoints_reached`, and when `pause_duration > 0` dwell and log
"Pause Complete"; otherwise log "Failed" and increment `waypoints_failed`. -/
def processWaypoint (odom : Odom) (w : Waypoint) (r : WaypointResult) (s : Stats) :
    Stats × List LogRecord × List ClientAction :=
  let sent := mkRecord odom w "Goal Sent"
  let acts : List ClientAction := [ClientAction.sendGoal w.x w.y]
  if r.waitOk = false then
    ({ s with failedW := s.failedW + 1 }, [sent, mkRecord odom w "Timeout"], acts)
  else if r.state = SUCCEEDED then
    let recs :=
      if w.pause > 0 then
        [sent, mkRecord odom w "Reached", mkRecord odom w "Pause Complete"]
      else
        [sent, mkRecord odom w "Reached"]
    ({ s with reached := s.reached + 1 }, recs, acts)
  else
    ({ s with failedW := s.failedW + 1 }, [sent, mkRecord odom w "Failed"], acts)

/-- The sequencing loop of `navigate_to_waypoints`, folded over the list of
waypoints paired with the result the action client produced for each. -/
def runLoop (odom : Odom) : List (Waypoint × WaypointResult) → Stats →
    Stats × List LogRecord × List ClientAction
  | [], s => (s, [], [])
  | (w, r) :: rest, s =>
    let p := processWaypoint odom w r s
    let q := runLoop odom rest p.1
    (q.1, p.2.1 ++ q.2.1, p.2.2 ++ q.2.2)

/-- Statistics after the loop has processed the first `k` waypoints, starting
from the zero counters set in `__init__`. -/
def statsAfter (odom : Odom) (l : List (Waypoint × WaypointResult)) (k : ℕ) : Stats :=
  (runLoop odom (l.take k) ⟨0, 0⟩).1

/-- Final statistics of a loop that ran over the whole list. -/
def finalStats (odom : Odom) (l : List (Waypoint × WaypointResult)) : Stats :=
  (runLoop odom l ⟨0, 0⟩).1

/-- Each iteration of the loop increments exactly one of the two counters. -/
theorem processWaypoint_step (odom : Odom) (w : Waypoint) (r : WaypointResult) (s : Stats) :
    ((processWaypoint odom w r s).1.reached = s.reached + 1 ∧
      (processWaypoint odom w r s).1.failedW = s.failedW) ∨
    ((processWaypoint odom w r s).1.reached = s.reached ∧
      (processWaypoint odom w r s).1.failedW = s.failedW + 1) := by
  unfold processWaypoint
  by_cases h1 : r.waitOk = false
  · simp [h1]
  · by_cases h2 : r.state = SUCCEEDED
    · simp [h1, h2]
    · simp [h1, h2]

/-- Over any list, the loop adds exactly the list length to the counter sum
and never decreases either counter. -/
theorem runLoop_stats (odom : Odom) :
    ∀ (l : List (Waypoint × WaypointResult)) (s : Stats),
      (runLoop odom l s).1.reached + (runLoop odom l s).1.failedW
          = s.reached + s.failedW + l.length ∧
      s.reached ≤ (runLoop odom l s).1.reached ∧
      s.failedW ≤ (runLoop odom l s).1.failedW := by
  intro l
  induction l with
  | nil => intro s; simp [runLoop]
  | cons hd tl ih =>
    intro s
    obtain ⟨w, r⟩ := hd
    have hstep := processWaypoint_step odom w r s
    have htl := ih (processWaypoint odom w r s).1
    simp only [runLoop, List.length_cons]
    rcases hstep with ⟨h1, h2⟩ | ⟨h1, h2⟩ <;>
      · constructor
        · omega
        · omega

/-- Decomposition of the loop over list concatenation. -/
theorem runLoop_append (odom : Odom) (a b : List (Waypoint × WaypointResult)) (s : Stats) :
    runLoop odom (a ++ b) s =
      ((runLoop odom b (runLoop odom a s).1).1,
       (runLoop odom a s).2.1 ++ (runLoop odom b (runLoop odom a s).1).2.1,
       (runLoop odom a s).2.2 ++ (runLoop odom b (runLoop odom a s).1).2.2) := by
  induction a generalizing s with
  | nil => simp [runLoop]
  | cons hd tl ih =>
    obtain ⟨w, r⟩ := hd
    simp [runLoop, ih]

/-- C2: at every point of the run `reached + failed` equals the number of
waypoints processed so far, hence stays at most `total`; after the loop
completes over the whole list `reached + failed = total`; each iteration
increments exactly one of the two counters; and neither counter ever
decreases as the run advances. -/
theorem stats_invariant (odom : Odom) (l : List (Waypoint × WaypointResult)) (k : ℕ)
    (hk : k ≤ l.length) :
    ((statsAfter odom l k).reached + (statsAfter odom l k).failedW = k) ∧
    ((statsAfter odom l k).reached + (statsAfter odom l k).failedW ≤ l.length) ∧
    ((statsAfter odom l l.length).reached + (statsAfter odom l l.length).failedW
        = l.length) ∧
    (∀ (w : Waypoint) (r : WaypointResult) (s : Stats),
      ((processWaypoint odom w r s).1.reached = s.reached + 1 ∧
        (processWaypoint odom w r s).1.failedW = s.failedW) ∨
      ((processWaypoint odom w r s).1.reached = s.reached ∧
        (processWaypoint odom w r s).1.failedW = s.failedW + 1)) ∧
    (∀ k₁ k₂ : ℕ, k₁ ≤ k₂ →
      (statsAfter odom l k₁).reached ≤ (statsAfter odom l k₂).reached ∧
      (statsAfter odom l k₁).failedW ≤ (statsAfter odom l k₂).failedW) := by
  have hsum : ∀ m : ℕ,
      (statsAfter odom l m).reached + (statsAfter odom l m).failedW = (l.take m).length := by
    intro m
    have h := (runLoop_stats odom (l.take m) ⟨0, 0⟩).1
    simpa [statsAfter] using h
  refine ⟨?_, ?_, ?_, fun w r s => processWaypoint_step odom w r s, ?_⟩
  · rw [hsum k, List.length_take]
    omega
  · rw [hsum k, List.length_take]
    omega
  · rw [hsum l.length, List.length_take]
    omega
  · intro k₁ k₂ h12
    have hdecomp : l.take k₂ = l.take k₁ ++ (l.take k₂).drop k₁ := by
      conv_lhs => rw [← List.take_append_drop k₁ (l.take k₂)]
      rw [List.take_take, min_eq_left h12]
    have hmono := (runLoop_stats odom ((l.take k₂).drop k₁) (statsAfter odom l k₁)).2
    have hks : statsAfter odom l k₂ =
        (runLoop odom ((l.take k₂).drop k₁) (statsAfter odom l k₁)).1 := by
      unfold statsAfter
      conv_lhs => rw [hdecomp]
      rw [runLoop_append]
    rw [hks]
    exact hmono

/-- A concrete waypoint used to instantiate the theorems. -/
def wptA : Waypoint := { x := 1, y := 2, name := "Corner 1", pause := 2 }

/-- A concrete zero-dwell waypoint. -/
def wptZ : Waypoint := { x := 3, y := 4, name := "Waypoint - Obstacle 1 Zone", pause := 0 }

/-- A result where `wait_for_result` returned true and the goal succeeded. -/
def resSucceeded : WaypointResult := { waitOk := true, state := 3 }

/-- A result where `wait_for_result` returned false (timeout). -/
def resTimeout : WaypointResult := { waitOk := false, state := 1 }

/-- A result where the goal terminated in a non-success state (aborted). -/
def resAborted : WaypointResult := { waitOk := true, state := 4 }

/-- Witness: `stats_invariant` evaluated on a concrete two-waypoint run after
one iteration. -/
theorem stats_invariant_witness :
    (statsAfter none [(wptA, resSucceeded), (wptZ, resTimeout)] 1).reached +
      (statsAfter none [(wptA, resSucceeded), (wptZ, resTimeout)] 1).failedW = 1 :=
  (stats_invariant none [(wptA, resSucceeded), (wptZ, resTimeout)] 1 (by decide)).1

/-- The success-rate expression of the summary block (lines 203-205):
`100.0 * self.waypoints_reached / len(self.waypoints) if len(self.waypoints) > 0
else 0`. -/
def successRate (reachedCount total : ℕ) : ℚ :=
  if total > 0 then (100 * reachedCount : ℚ) / total else 0

/-- The summary block written at the end of `navigate_to_waypoints`
(lines 196-207): total, reached, failed, and the guarded success rate. -/
structure Summary where
  total : ℕ
  reachedCount : ℕ
  failedCount : ℕ
  rate : ℚ
deriving DecidableEq

/-- Builds the summary from the waypoint list and the final statistics, as the
code does from `len(self.waypoints)` and the two counters. -/
def mkSummary (l : List (Waypoint × WaypointResult)) (s : Stats) : Summary :=
  { total := l.length, reachedCount := s.reached, failedCount := s.failedW,
    rate := successRate s.reached l.length }

/-- C3: the rate written in the summary footer is `100 * reached / total`,
with the division guarded so that an empty waypoint list yields rate 0 rather
than a division by zero; consequently the written rate always lies between 0
and 100. -/
theorem summary_success_rate (odom : Odom) (l : List (Waypoint × WaypointResult)) :
    ((mkSummary l (finalStats odom l)).rate =
      if l.length = 0 then 0
      else (100 * ((finalStats odom l).reached : ℚ)) / (l.length : ℚ)) ∧
    (mkSummary [] (finalStats odom [])).rate = 0 ∧
    0 ≤ (mkSummary l (finalStats odom l)).rate ∧
    (mkSummary l (finalStats odom l)).rate ≤ 100 := by
  have hle : (finalStats odom l).reached ≤ l.length := by
    have h : (runLoop odom l ⟨0, 0⟩).1.reached + (runLoop odom l ⟨0, 0⟩).1.failedW
        = l.length := by
      simpa using (runLoop_stats odom l ⟨0, 0⟩).1
    unfold finalStats
    omega
  refine ⟨?_, by simp [mkSummary, successRate, finalStats, runLoop], ?_, ?_⟩
  · by_cases h0 : l.length = 0
    · simp [mkSummary, successRate, h0]
    · simp [mkSummary, successRate, h0, Nat.pos_of_ne_zero h0]
  · by_cases h0 : l.length = 0
    · simp [mkSummary, successRate, h0]
    · have hpos : (0 : ℚ) < l.length := by
        exact_mod_cast Nat.pos_of_ne_zero h0
      simp only [mkSummary, successRate, Nat.pos_of_ne_zero h0, if_pos]
      positivity
  · by_cases h0 : l.length = 0
    · simp [mkSummary, successRate, h0]
    · have hpos : (0 : ℚ) < l.length := by
        exact_mod_cast Nat.pos_of_ne_zero h0
      simp only [mkSummary, successRate, Nat.pos_of_ne_zero h0, if_pos]
      rw [div_le_iff₀ hpos]
      have : ((finalStats odom l).reached : ℚ) ≤ (l.length : ℚ) := by
        exact_mod_cast hle
      nlinarith

/-- C4: when `wait_for_result` returns false the loop writes exactly the
"Goal Sent" and "Timeout" rows for that waypoint, increments `failed` and
leaves `reached` unchanged, never calls `cancel_all_goals` (the single client
call is the one `send_goal`), and continues with the remaining waypoints, so
the timed-out waypoint is dispatched exactly once and not retried. -/
theorem timeout_no_cancel_no_retry (odom : Odom) (w : Waypoint) (r : WaypointResult)
    (s : Stats) (rest : List (Waypoint × WaypointResult)) (h : r.waitOk = false) :
    (processWaypoint odom w r s).2.1 =
      [mkRecord odom w "Goal Sent", mkRecord odom w "Timeout"] ∧
    (processWaypoint odom w r s).1.failedW = s.failedW + 1 ∧
    (processWaypoint odom w r s).1.reached = s.reached ∧
    (processWaypoint odom w r s).2.2 = [ClientAction.sendGoal w.x w.y] ∧
    ClientAction.cancelAllGoals ∉ (processWaypoint odom w r s).2.2 ∧
    runLoop odom ((w, r) :: rest) s =
      ((runLoop odom rest (processWaypoint odom w r s).1).1,
       (processWaypoint odom w r s).2.1 ++
         (runLoop odom rest (processWaypoint odom w r s).1).2.1,
       (processWaypoint odom w r s).2.2 ++
         (runLoop odom rest (processWaypoint odom w r s).1).2.2) := by
  refine ⟨?_, ?_, ?_, ?_, ?_, rfl⟩ <;> simp [processWaypoint, h]

/-- Witness: `timeout_no_cancel_no_retry` on a concrete timed-out waypoint. -/
theorem timeout_no_cancel_no_retry_witness :
    (processWaypoint none wptA resTimeout ⟨0, 0⟩).1.failedW = 0 + 1 :=
  (timeout_no_cancel_no_retry none wptA resTimeout ⟨0, 0⟩ [] rfl).2.1

/-- C5: a timed-out waypoint never increments `reached`; a succeeded waypoint
with zero dwell writes exactly the "Goal Sent" and "Reached" rows and no
"Pause Complete" row; the "Pause Complete" row appears exactly when the
outcome is `SUCCEEDED` and the dwell is positive, and never for a timeout or
a non-success terminal state. -/
theorem outcome_record_discipline (odom : Odom) (w : Waypoint) (r : WaypointResult)
    (s : Stats) :
    (r.waitOk = false → (processWaypoint odom w r s).1.reached = s.reached) ∧
    (r.waitOk = true → r.state = SUCCEEDED → w.pause = 0 →
      (processWaypoint odom w r s).2.1 =
        [mkRecord odom w "Goal Sent", mkRecord odom w "Reached"] ∧
      mkRecord odom w "Pause Complete" ∉ (processWaypoint odom w r s).2.1) ∧
    (r.waitOk = true → r.state = SUCCEEDED → 0 < w.pause →
      mkRecord odom w "Pause Complete" ∈ (processWaypoint odom w r s).2.1) ∧
    (r.waitOk = false → mkRecord odom w "Pause Complete" ∉ (processWaypoint odom w r s).2.1) ∧
    (r.waitOk = true → r.state ≠ SUCCEEDED →
      mkRecord odom w "Pause Complete" ∉ (processWaypoint odom w r s).2.1) := by
  refine ⟨?_, ?_, ?_, ?_, ?_⟩
  · intro h
    simp [processWaypoint, h]
  · intro h1 h2 h3
    constructor
    · simp [processWaypoint, h1, h2, h3]
    · simp [processWaypoint, h1, h2, h3, mkRecord]
  · intro h1 h2 h3
    simp [processWaypoint, h1, h2, h3]
  · intro h
    simp [processWaypoint, h, mkRecord]
  · intro h1 h2
    simp [processWaypoint, h1, h2, mkRecord]

/-- Witness: `outcome_record_discipline` on a concrete succeeded zero-dwell
waypoint. -/
theorem outcome_record_discipline_witness :
    (processWaypoint none wptZ resSucceeded ⟨0, 0⟩).2.1 =
      [mkRecord none wptZ "Goal Sent", mkRecord none wptZ "Reached"] :=
  ((outcome_record_discipline none wptZ resSucceeded ⟨0, 0⟩).2.1 rfl rfl rfl).1

/-- Observable state of the log file opened in `__init__`: the body rows, the
number of summary footer blocks written (lines 196-207), the number of
"Shutdown initiated" markers (lines 215-217), whether the file is closed, and
how many `close()` calls were performed. -/
structure LogState where
  body : List LogRecord
  footers : ℕ
  markers : ℕ
  closed : Bool
  closes : ℕ
deriving DecidableEq

/-- State of the running node: the log, the statistics, and the number of
`cancel_all_goals` calls issued on the action client. -/
structure NodeState where
  log : LogState
  stats : Stats
  cancels : ℕ
deriving DecidableEq

/-- The state right after `__init__`: log opened with its header, counters at
zero, no cancel issued. -/
def initState : NodeState :=
  { log := { body := [], footers := 0, markers := 0, closed := false, closes := 0 },
    stats := { reached := 0, failedW := 0 }, cancels := 0 }

/-- Runs the sequencing loop over a list of waypoints from a node state:
appends the loop records to the log body, updates the statistics, and counts
any `cancel_all_goals` the loop issues (the loop issues none). -/
def applyLoop (odom : Odom) (l : List (Waypoint × WaypointResult)) (s : NodeState) :
    NodeState :=
  let p := runLoop odom l s.stats
  { s with
    stats := p.1,
    log := { s.log with body := s.log.body ++ p.2.1 },
    cancels := s.cancels + p.2.2.count ClientAction.cancelAllGoals }

/-- The summary block write at the end of `navigate_to_waypoints`
(lines 196-207): unconditional, not guarded by any flag. -/
def writeSummary (s : NodeState) : NodeState :=
  { s with log := { s.log with footers := s.log.footers + 1 } }

/-- `shutdown_hook` (lines 209-219): always calls `cancel_all_goals`; then,
only if the log file is not closed, writes the "Shutdown initiated" marker and
closes it. -/
def shutdown_hook (s : NodeState) : NodeState :=
  let s1 : NodeState := { s with cancels := s.cancels + 1 }
  if s1.log.closed = false then
    { s1 with
      log :=
        { s1.log with
          markers := s1.log.markers + 1
          closed := true
          closes := s1.log.closes + 1 } }
  else s1

/-- On an open log, `shutdown_hook` cancels once, writes the marker, and
closes the file. -/
theorem shutdown_hook_open (s : NodeState) (h : s.log.closed = false) :
    shutdown_hook s =
      { s with
        cancels := s.cancels + 1
        log :=
          { s.log with
            markers := s.log.markers + 1
            closed := true
            closes := s.log.closes + 1 } } := by
  unfold shutdown_hook
  simp [h]

/-- On a closed log, `shutdown_hook` only cancels again; the log is
untouched. -/
theorem shutdown_hook_closed (s : NodeState) (h : s.log.closed = true) :
    shutdown_hook s = { s with cancels := s.cancels + 1 } := by
  unfold shutdown_hook
  simp [h]

/-- A run in which `navigate_to_waypoints` completes over the whole list
(writing the summary) and the node is then shut down externally, as `main`
arranges via `rospy.spin()`. -/
def normalRun (odom : Odom) (l : List (Waypoint × WaypointResult)) : NodeState :=
  shutdown_hook (writeSummary (applyLoop odom l initState))

/-- A run interrupted by shutdown after `k` loop iterations: the loop body
stops (the blocking waits raise on shutdown), so the summary write at the end
of `navigate_to_waypoints` is never reached, and only `shutdown_hook` runs. -/
def interruptedRun (odom : Odom) (l : List (Waypoint × WaypointResult)) (k : ℕ) :
    NodeState :=
  shutdown_hook (applyLoop odom (l.take k) initState)

/-- The loop never calls `cancel_all_goals`: every iteration issues exactly
one `send_goal`. -/
theorem runLoop_no_cancel (odom : Odom) :
    ∀ (l : List (Waypoint × WaypointResult)) (s : Stats),
      (runLoop odom l s).2.2.count ClientAction.cancelAllGoals = 0 := by
  intro l
  induction l with
  | nil => intro s; simp [runLoop]
  | cons hd tl ih =>
    intro s
    obtain ⟨w, r⟩ := hd
    have hacts : (processWaypoint odom w r s).2.2 = [ClientAction.sendGoal w.x w.y] := by
      unfold processWaypoint
      by_cases h1 : r.waitOk = false
      · simp [h1]
      · by_cases h2 : r.state = SUCCEEDED
        · simp [h1, h2]
        · simp [h1, h2]
    simp [runLoop, hacts, ih]

/-- `applyLoop` touches only the body, the statistics and the cancel counter,
and adds no cancel. -/
theorem applyLoop_log (odom : Odom) (l : List (Waypoint × WaypointResult))
    (s : NodeState) :
    (applyLoop odom l s).log.closed = s.log.closed ∧
    (applyLoop odom l s).log.closes = s.log.closes ∧
    (applyLoop odom l s).log.footers = s.log.footers ∧
    (applyLoop odom l s).log.markers = s.log.markers ∧
    (applyLoop odom l s).cancels = s.cancels := by
  refine ⟨rfl, rfl, rfl, rfl, ?_⟩
  simp [applyLoop, runLoop_no_cancel]

/-- C1 counterexample: a run interrupted before its first waypoint writes no
summary footer at all, refuting "exactly one summary footer regardless of
whether the run completes normally or is interrupted by shutdown". -/
theorem summary_footer_missing_when_interrupted :
    (interruptedRun none [(wptA, resSucceeded)] 0).log.footers = 0 := by
  rfl

/-- C1 amended: a run whose sequencing loop completes writes exactly one
summary footer; a run interrupted by shutdown writes none (only the shutdown
marker); and the log finalization performed by `shutdown_hook` is idempotent:
after one invocation the log is closed, and a second invocation leaves the
log state unchanged. -/
theorem summary_footer_amended (odom : Odom) (l : List (Waypoint × WaypointResult))
    (k : ℕ) (s : NodeState) :
    (normalRun odom l).log.footers = 1 ∧
    (interruptedRun odom l k).log.footers = 0 ∧
    (shutdown_hook s).log.closed = true ∧
    (shutdown_hook (shutdown_hook s)).log = (shutdown_hook s).log := by
  have hfoot : ∀ t : NodeState, (shutdown_hook t).log.footers = t.log.footers := by
    intro t
    rcases Bool.eq_false_or_eq_true t.log.closed with ht | ht
    · rw [shutdown_hook_closed t ht]
    · rw [shutdown_hook_open t ht]
  have hclosed : ∀ t : NodeState, (shutdown_hook t).log.closed = true := by
    intro t
    rcases Bool.eq_false_or_eq_true t.log.closed with ht | ht
    · rw [shutdown_hook_closed t ht]
      exact ht
    · rw [shutdown_hook_open t ht]
  refine ⟨?_, ?_, hclosed s, ?_⟩
  · unfold normalRun
    rw [hfoot]
    show (applyLoop odom l initState).log.footers + 1 = 1
    rw [(applyLoop_log odom l initState).2.2.1]
    rfl
  · unfold interruptedRun
    rw [hfoot]
    exact (applyLoop_log odom (l.take k) initState).2.2.1
  · rw [shutdown_hook_closed (shutdown_hook s) (hclosed s)]

/-- C6: `shutdown_hook` on any state whose log is still open closes it,
writes one shutdown marker while closing, and issues exactly one
`cancel_all_goals`; since the loop and the summary writer never close the log
and never cancel, a shutdown arriving at any point of a run — before any
waypoint, between any two iterations, or after normal completion — leaves the
log closed by exactly one `close()` with exactly one marker and exactly one
cancel issued. -/
theorem shutdown_closes_once (odom : Odom) (l : List (Waypoint × WaypointResult))
    (k : ℕ) (s : NodeState) (h : s.log.closed = false) :
    ((shutdown_hook s).log.closed = true ∧
     (shutdown_hook s).log.markers = s.log.markers + 1 ∧
     (shutdown_hook s).log.closes = s.log.closes + 1 ∧
     (shutdown_hook s).cancels = s.cancels + 1) ∧
    ((applyLoop odom l s).log.closed = s.log.closed ∧
     (applyLoop odom l s).log.closes = s.log.closes ∧
     (applyLoop odom l s).cancels = s.cancels) ∧
    ((interruptedRun odom l k).log.closed = true ∧
     (interruptedRun odom l k).log.closes = 1 ∧
     (interruptedRun odom l k).log.markers = 1 ∧
     (interruptedRun odom l k).cancels = 1) ∧
    ((normalRun odom l).log.closed = true ∧
     (normalRun odom l).log.closes = 1 ∧
     (normalRun odom l).log.markers = 1 ∧
     (normalRun odom l).cancels = 1) := by
  have hook : ∀ t : NodeState, t.log.closed = false →
      (shutdown_hook t).log.closed = true ∧
      (shutdown_hook t).log.markers = t.log.markers + 1 ∧
      (shutdown_hook t).log.closes = t.log.closes + 1 ∧
      (shutdown_hook t).cancels = t.cancels + 1 := by
    intro t ht
    rw [shutdown_hook_open t ht]
    exact ⟨rfl, rfl, rfl, rfl⟩
  have hloop := applyLoop_log odom (l.take k) initState
  have hloop' := applyLoop_log odom l initState
  refine ⟨hook s h, ?_, ?_, ?_⟩
  · exact ⟨(applyLoop_log odom l s).1, (applyLoop_log odom l s).2.1,
      (applyLoop_log odom l s).2.2.2.2⟩
  · have hmid := hook (applyLoop odom (l.take k) initState) (by rw [hloop.1]; rfl)
    unfold interruptedRun
    refine ⟨hmid.1, ?_, ?_, ?_⟩
    · rw [hmid.2.2.1, hloop.2.1]
      rfl
    · rw [hmid.2.1, hloop.2.2.2.1]
      rfl
    · rw [hmid.2.2.2, hloop.2.2.2.2]
      rfl
  · have hsum : (writeSummary (applyLoop odom l initState)).log.closed = false ∧
        (writeSummary (applyLoop odom l initState)).log.closes = 0 ∧
        (writeSummary (applyLoop odom l initState)).log.markers = 0 ∧
        (writeSummary (applyLoop odom l initState)).cancels = 0 := by
      refine ⟨?_, ?_, ?_, ?_⟩
      · show (applyLoop odom l initState).log.closed = false
        rw [hloop'.1]
        rfl
      · show (applyLoop odom l initState).log.closes = 0
        rw [hloop'.2.1]
        rfl
      · show (applyLoop odom l initState).log.markers = 0
        rw [hloop'.2.2.2.1]
        rfl
      · show (applyLoop odom l initState).cancels = 0
        rw [hloop'.2.2.2.2]
        rfl
    have hend := hook (writeSummary (applyLoop odom l initState)) hsum.1
    unfold normalRun
    refine ⟨hend.1, ?_, ?_, ?_⟩
    · rw [hend.2.2.1, hsum.2.1]
    · rw [hend.2.1, hsum.2.2.1]
    · rw [hend.2.2.2, hsum.2.2.2]

/-- Witness: `shutdown_closes_once` applied to the freshly initialized node. -/
theorem shutdown_closes_once_witness :
    (shutdown_hook initState).cancels = initState.cancels + 1 :=
  (shutdown_closes_once none [] 0 initState rfl).1.2.2.2

/-- The fallback directory hard-coded in `__init__` (line 59). -/
def fallbackLogDir : String := "~/catkin_ws/src/turtlebot3_exploration/logs"

/-- Directory selection in `__init__` (lines 52-59): the `try/except` covers
only the `rospkg` package-path lookup; when it raises, the hard-coded home
directory is selected instead. -/
def chooseLogDir (packagePath : Option String) : String :=
  match packagePath with
  | some p => p ++ "/logs"
  | none => fallbackLogDir

/-- Failure of `os.makedirs` on the selected directory. -/
inductive LogInitError
  | makedirsFailed (dir : String)
deriving DecidableEq

/-- The log-directory setup of `__init__` (lines 52-63): select the directory
(with the lookup fallback), then run `os.makedirs` on it; `os.makedirs` sits
outside the `try/except`, so a failure there propagates out of `__init__`
uncaught. `dirOk d` holds when the directory `d` already exists or can be
created. -/
def setupLogDir (packagePath : Option String) (dirOk : String → Bool) :
    Except LogInitError String :=
  let dir := chooseLogDir packagePath
  if dirOk dir then Except.ok dir else Except.error (LogInitError.makedirsFailed dir)

/-- The recovery behavior that claim C7 attributes to the code, written from
the words of the spec: if the primary directory cannot be created, fall back
to the secondary location, and fail only when both are unusable. -/
def specSetupLogDir (packagePath : Option String) (dirOk : String → Bool) :
    Except LogInitError String :=
  let primary := chooseLogDir packagePath
  if dirOk primary then Except.ok primary
  else if dirOk fallbackLogDir then Except.ok fallbackLogDir
  else Except.error (LogInitError.makedirsFailed fallbackLogDir)

/-- C7 counterexample: with a resolvable package path whose `logs` directory
cannot be created while the fallback directory could be, the code aborts with
the creation error instead of recovering to the fallback, contradicting
"recovers locally by falling back ... only aborts fatally if both fail". -/
theorem primary_makedirs_failure_is_fatal :
    setupLogDir (some "/opt/ros/pkg") (fun d => d == fallbackLogDir) =
      Except.error (LogInitError.makedirsFailed "/opt/ros/pkg/logs") ∧
    (fun d => d == fallbackLogDir) fallbackLogDir = true ∧
    specSetupLogDir (some "/opt/ros/pkg") (fun d => d == fallbackLogDir) =
      Except.ok fallbackLogDir := by
  refine ⟨rfl, rfl, rfl⟩

/-- C7 amended: the fallback location is selected only when the package-path
lookup fails; whichever directory is selected, a failure to create it is
immediately fatal, with no second attempt at the other location. -/
theorem log_dir_fallback_amended (pp : String) (dirOk : String → Bool) :
    (setupLogDir none dirOk =
      if dirOk fallbackLogDir then Except.ok fallbackLogDir
      else Except.error (LogInitError.makedirsFailed fallbackLogDir)) ∧
    (setupLogDir (some pp) dirOk =
      if dirOk (pp ++ "/logs") then Except.ok (pp ++ "/logs")
      else Except.error (LogInitError.makedirsFailed (pp ++ "/logs"))) := by
  constructor <;> rfl

/-- The fields of the `MoveBaseGoal` built by `create_goal` that the program
sets: frame id, position, and orientation quaternion. -/
structure GoalPose where
  frameId : String
  px : ℝ
  py : ℝ
  pz : ℝ
  ox : ℝ
  oy : ℝ
  oz : ℝ
  ow : ℝ

/-- `create_goal(x, y, orientation_yaw)` (lines 94-111): position `(x, y, 0)`
in the "map" frame and the yaw converted to a quaternion with
`z = sin(yaw / 2)`, `w = cos(yaw / 2)`, `x = y = 0`. -/
noncomputable def create_goal (x y orientation_yaw : ℝ) : GoalPose :=
  { frameId := "map", px := x, py := y, pz := 0,
    ox := 0, oy := 0,
    oz := Real.sin (orientation_yaw / 2), ow := Real.cos (orientation_yaw / 2) }

/-- The call site in the loop, `self.create_goal(x, y)` (line 149), which
uses the default yaw `0.0`. -/
noncomputable def goalForWaypoint (x y : ℝ) : GoalPose := create_goal x y 0

/-- C8: every goal has position `(x, y, 0)`, orientation
`(0, 0, sin(yaw / 2), cos(yaw / 2))` in the fixed "map" frame, the orientation
is a unit quaternion, and the goal dispatched by the loop is the one built
with the default yaw 0. -/
theorem create_goal_spec (x y yaw : ℝ) :
    (create_goal x y yaw).px = x ∧
    (create_goal x y yaw).py = y ∧
    (create_goal x y yaw).pz = 0 ∧
    (create_goal x y yaw).ox = 0 ∧
    (create_goal x y yaw).oy = 0 ∧
    (create_goal x y yaw).oz = Real.sin (yaw / 2) ∧
    (create_goal x y yaw).ow = Real.cos (yaw / 2) ∧
    (create_goal x y yaw).frameId = "map" ∧
    (create_goal x y yaw).ox ^ 2 + (create_goal x y yaw).oy ^ 2 +
      (create_goal x y yaw).oz ^ 2 + (create_goal x y yaw).ow ^ 2 = 1 ∧
    goalForWaypoint x y = create_goal x y 0 := by
  refine ⟨rfl, rfl, rfl, rfl, rfl, rfl, rfl, rfl, ?_, rfl⟩
  show (0 : ℝ) ^ 2 + (0 : ℝ) ^ 2 + Real.sin (yaw / 2) ^ 2 + Real.cos (yaw / 2) ^ 2 = 1
  have h := Real.sin_sq_add_cos_sq (yaw / 2)
  nlinarith [h]

/-- Events affecting the odometry cell and the log: the `/odom` subscriber
delivering a message to `odom_callback` (lines 90-92), or the sequencer
calling `log_waypoint` (lines 113-130). -/
inductive NavEvent
  | odomMsg (x y : ℚ)
  | logCall (w : Waypoint) (status : String)
deriving DecidableEq

/-- The state touched by those events: `self.current_odom` and the rows
written so far. -/
structure OdomLogState where
  currentOdom : Odom
  rows : List LogRecord
deriving DecidableEq

/-- One event: `odom_callback` overwrites `self.current_odom`
(last-write-wins); `log_waypoint` appends a row whose `Actual:` suffix is the
current snapshot, or is omitted when the snapshot is `none`. -/
def navStep (s : OdomLogState) : NavEvent → OdomLogState
  | NavEvent.odomMsg x y => { s with currentOdom := some (x, y) }
  | NavEvent.logCall w st => { s with rows := s.rows ++ [mkRecord s.currentOdom w st] }

/-- Folding a list of events over the state. -/
def navRun (s : OdomLogState) (evs : List NavEvent) : OdomLogState :=
  evs.foldl navStep s

/-- C9: `self.current_odom` is never reset to `none`: once an odometry update
has arrived, it stays present under every further event and every
subsequently written row carries the `Actual:` suffix; while it is still
`none` and no update arrives, every written row omits the suffix, and
`log_waypoint` is total in both cases (no error is raised). -/
theorem odom_monotone_logging (s : OdomLogState) (evs : List NavEvent) :
    (s.currentOdom.isSome = true →
      (navRun s evs).currentOdom.isSome = true ∧
      ∀ rec ∈ (navRun s evs).rows, rec ∈ s.rows ∨ rec.actual.isSome = true) ∧
    (s.currentOdom = none → (∀ e ∈ evs, ∀ x y, e ≠ NavEvent.odomMsg x y) →
      (navRun s evs).currentOdom = none ∧
      ∀ rec ∈ (navRun s evs).rows, rec ∈ s.rows ∨ rec.actual = none) := by
  induction evs generalizing s with
  | nil =>
    refine ⟨fun h => ⟨h, fun rec hrec => Or.inl hrec⟩,
            fun h _ => ⟨h, fun rec hrec => Or.inl hrec⟩⟩
  | cons e tl ih =>
    constructor
    · intro hsome
      have hstep : (navStep s e).currentOdom.isSome = true := by
        cases e with
        | odomMsg x y => rfl
        | logCall w st => exact hsome
      have htl := (ih (navStep s e)).1 hstep
      refine ⟨htl.1, ?_⟩
      intro rec hrec
      rcases htl.2 rec hrec with hold | hnew
      · cases e with
        | odomMsg x y => exact Or.inl hold
        | logCall w st =>
          rcases List.mem_append.mp hold with h1 | h1
          · exact Or.inl h1
          · right
            rcases List.mem_singleton.mp h1 with rfl
            simpa [mkRecord] using hsome
      · exact Or.inr hnew
    · intro hnone hnomsg
      cases e with
      | odomMsg x y =>
        exact absurd rfl (hnomsg (NavEvent.odomMsg x y) (List.mem_cons_self _ _) x y)
      | logCall w st =>
        have hstepnone : (navStep s (NavEvent.logCall w st)).currentOdom = none := hnone
        have htl := (ih (navStep s (NavEvent.logCall w st))).2 hstepnone
          (fun e' he' x y => hnomsg e' (List.mem_cons_of_mem _ he') x y)
        refine ⟨htl.1, ?_⟩
        intro rec hrec
        rcases htl.2 rec hrec with hold | hnew
        · rcases List.mem_append.mp hold with h1 | h1
          · exact Or.inl h1
          · right
            rcases List.mem_singleton.mp h1 with rfl
            simp [mkRecord, hnone]
        · exact Or.inr hnew

/-- Witness: `odom_monotone_logging` on a state that has already received an
odometry update, followed by one log call. -/
theorem odom_monotone_logging_witness :
    (navRun ⟨some (1, 2), []⟩ [NavEvent.logCall wptA "Goal Sent"]).currentOdom.isSome
      = true := by
  have h := odom_monotone_logging ⟨some (1, 2), []⟩ [NavEvent.logCall wptA "Goal Sent"]
  exact (h.1 rfl).1

/-- The atomic operations of one loop iteration, in program order. -/
inductive Step
  | record (r : LogRecord)
  | send (x y : ℚ)
  | incReached
  | incFailed
  | dwell (d : ℚ)
deriving DecidableEq

/-- One loop iteration of `navigate_to_waypoints` as its ordered sequence of
atomic operations (lines 148-181): log "Goal Sent", `send_goal`, then on
timeout log "Timeout" and increment `failed`; on `SUCCEEDED` log "Reached",
increment `reached`, then when `pause_duration > 0` sleep and log
"Pause Complete"; otherwise log "Failed" and increment `failed`. -/
def waypointSteps (odom : Odom) (w : Waypoint) (r : WaypointResult) : List Step :=
  [Step.record (mkRecord odom w "Goal Sent"), Step.send w.x w.y] ++
  (if r.waitOk = false then
    [Step.record (mkRecord odom w "Timeout"), Step.incFailed]
  else if r.state = SUCCEEDED then
    [Step.record (mkRecord odom w "Reached"), Step.incReached] ++
      (if w.pause > 0 then
        [Step.dwell w.pause, Step.record (mkRecord odom w "Pause Complete")]
      else [])
  else
    [Step.record (mkRecord odom w "Failed"), Step.incFailed])

/-- Effect of one atomic operation on the statistics and the written rows. -/
def execStep (p : Stats × List LogRecord) : Step → Stats × List LogRecord
  | Step.record r => (p.1, p.2 ++ [r])
  | Step.send _ _ => p
  | Step.incReached => ({ p.1 with reached := p.1.reached + 1 }, p.2)
  | Step.incFailed => ({ p.1 with failedW := p.1.failedW + 1 }, p.2)
  | Step.dwell _ => p

/-- Executing a list of atomic operations. -/
def execSteps (l : List Step) (p : Stats × List LogRecord) : Stats × List LogRecord :=
  l.foldl execStep p

/-- The step-level model agrees with the iteration-level model: executing the
full step list of a waypoint produces exactly the statistics and rows of
`processWaypoint`. -/
theorem execSteps_processWaypoint (odom : Odom) (w : Waypoint) (r : WaypointResult)
    (s : Stats) (rows : List LogRecord) :
    execSteps (waypointSteps odom w r) (s, rows) =
      ((processWaypoint odom w r s).1, rows ++ (processWaypoint odom w r s).2.1) := by
  unfold waypointSteps processWaypoint
  by_cases h1 : r.waitOk = false
  · simp [h1, execSteps, execStep]
  · by_cases h2 : r.state = SUCCEEDED
    · by_cases h3 : w.pause > 0
      · simp [h1, h2, h3, execSteps, execStep]
      · simp [h1, h2, h3, execSteps, execStep]
    · simp [h1, h2, execSteps, execStep]

/-- C10: for a succeeded waypoint with a positive dwell the loop performs, in
this order: log "Goal Sent", `send_goal`, log "Reached", increment `reached`,
dwell, log "Pause Complete"; therefore the run cut during the dwell (the
first five operations) has already counted the waypoint as reached and
written its "Reached" row, while the "Pause Complete" row is never written. -/
theorem reached_counted_before_dwell (odom : Odom) (w : Waypoint) (r : WaypointResult)
    (s : Stats) (rows : List LogRecord) (h1 : r.waitOk = true)
    (h2 : r.state = SUCCEEDED) (h3 : 0 < w.pause) :
    waypointSteps odom w r =
      [Step.record (mkRecord odom w "Goal Sent"), Step.send w.x w.y,
       Step.record (mkRecord odom w "Reached"), Step.incReached,
       Step.dwell w.pause, Step.record (mkRecord odom w "Pause Complete")] ∧
    (execSteps ((waypointSteps odom w r).take 5) (s, rows)).1.reached
      = s.reached + 1 ∧
    (execSteps ((waypointSteps odom w r).take 5) (s, rows)).1.failedW = s.failedW ∧
    (execSteps ((waypointSteps odom w r).take 5) (s, rows)).2 =
      rows ++ [mkRecord odom w "Goal Sent", mkRecord odom w "Reached"] := by
  have hsteps : waypointSteps odom w r =
      [Step.record (mkRecord odom w "Goal Sent"), Step.send w.x w.y,
       Step.record (mkRecord odom w "Reached"), Step.incReached,
       Step.dwell w.pause, Step.record (mkRecord odom w "Pause Complete")] := by
    unfold waypointSteps
    simp [h1, h2, h3]
  refine ⟨hsteps, ?_, ?_, ?_⟩ <;>
    · rw [hsteps]
      simp [execSteps, execStep]

/-- Witness: `reached_counted_before_dwell` on a concrete succeeded waypoint
with dwell 2, starting from zero statistics and an empty log. -/
theorem reached_counted_before_dwell_witness :
    (execSteps ((waypointSteps none wptA resSucceeded).take 5) (⟨0, 0⟩, [])).1.reached
      = 0 + 1 := by
  have h := reached_counted_before_dwell none wptA resSucceeded ⟨0, 0⟩ [] rfl rfl
    (by norm_num [wptA])
  exact h.2.1

end CornerNav
